import Mathlib

/-!
Verification model of the tandem-source-sync repository.

The scraping engine (the `scrapeTandemSource` orchestrator with its
`performLogin` and `downloadReport` phases, from the puppeteer-based
scraper module) is embedded as pure functions over an environment
structure that records the outcome of every browser interaction: how
long each navigation or selector wait took (`none` means it never
completed), which buttons and options the page offered, what the
current URL was at each checkpoint, and whether the download signals
fired.  Time is threaded explicitly: successful steps return the
milliseconds they consumed, so the total elapsed time of a run is
observable.  The API-key check (`validateApiKey` from lib/auth.ts) and
the POST /api/sync route handler are embedded directly.
-/

/-- JS-style substring containment on character lists:
`String.prototype.includes`. -/
def listContainsAux (pat : List Char) : List Char → Bool
  | [] => pat.isEmpty
  | c :: rest => pat.isPrefixOf (c :: rest) || listContainsAux pat rest

/-- JS `s.includes(pat)`. -/
def strIncludes (s pat : String) : Bool :=
  listContainsAux pat.data s.data

/-- JS `s.toLowerCase()` restricted to ASCII, which is all the scraper
compares. -/
def strLower (s : String) : String :=
  String.mk (s.data.map Char.toLower)

/-- JS `s.startsWith(pre)`. -/
def strStartsWith (s pre : String) : Bool :=
  pre.data.isPrefixOf s.data

/-- JS `s.substring(n)`. -/
def strDrop (s : String) (n : Nat) : String :=
  String.mk (s.data.drop n)

/-- A button (or link) as the scraper's `page.evaluate` scans see it:
its text content, its aria-label attribute, and its type attribute. -/
structure Btn where
  text : String
  ariaLabel : Option String := none
  btnType : Option String := none
deriving DecidableEq

/-- Cookie-consent scan: text contains "accept", "agree" or "cookie"
(lower-cased). -/
def cookieMatch (b : Btn) : Bool :=
  strIncludes (strLower b.text) "accept" ||
  strIncludes (strLower b.text) "agree" ||
  strIncludes (strLower b.text) "cookie"

/-- Does the aria-label (lower-cased) contain the pattern. -/
def ariaHas (b : Btn) (pat : String) : Bool :=
  match b.ariaLabel with
  | some a => strIncludes (strLower a) pat
  | none => false

/-- The "Next" button scan after the username step: text or aria-label
contains "next" (lower-cased). -/
def nextMatch (b : Btn) : Bool :=
  strIncludes (strLower b.text) "next" || ariaHas b "next"

/-- The submit-button heuristic used after the password is typed. -/
def submitMatch (b : Btn) : Bool :=
  strIncludes (strLower b.text) "sign in" ||
  strIncludes (strLower b.text) "log in" ||
  strIncludes (strLower b.text) "login" ||
  strIncludes (strLower b.text) "submit" ||
  strIncludes (strLower b.text) "next" ||
  strIncludes (strLower b.text) "continue" ||
  ariaHas b "sign in" ||
  ariaHas b "log in" ||
  ariaHas b "login" ||
  b.btnType == some "submit"

/-- The Continue-button scan on the country/language interstitial
(case sensitive, as in the source). -/
def contMatch (b : Btn) : Bool :=
  strIncludes b.text "Continue"

/-- Country option scan: text contains "United States" or "USA". -/
def usMatch (o : String) : Bool :=
  strIncludes o "United States" || strIncludes o "USA"

/-- Language option scan: text contains "English". -/
def enMatch (o : String) : Bool :=
  strIncludes o "English"

/-- Which country option the interstitial step clicks: the matching one
if present, otherwise the first available option. -/
def countrySelection (options : List String) : Option String :=
  match options.find? usMatch with
  | some o => some o
  | none => options.head?

/-- Which language option the interstitial step clicks: the matching one
if present, otherwise the first available option. -/
def languageSelection (options : List String) : Option String :=
  match options.find? enMatch with
  | some o => some o
  | none => options.head?

/-- Date-range option scan: the source hardcodes the text "1 Week"
regardless of the requested window. -/
def rangeSelection (options : List String) : Option String :=
  options.find? (fun o => strIncludes o "1 Week")

/-- Export control scan over buttons and links. -/
def exportMatch (s : String) : Bool :=
  strIncludes s "Export CSV" || strIncludes s "Export"

/-- Outcome environment for the login flow.  An `Option Nat` field is
the completion time in ms of an awaited browser operation (`none` if it
never completes); a `Bool` field records whether an element was present
or a fire-and-forget click succeeded. -/
structure LoginEnv where
  gotoRoot : Option Nat
  cookieButtons : List Btn
  countryInterstitial : Bool
  clickCountry : Bool
  countryOptions : List String
  clickLanguage : Bool
  languageOptions : List String
  continueButtons : List Btn
  onLoginPage : Bool
  navToLogin : Option Nat
  ssoUrl : String
  usernameWait : Option Nat
  step1Buttons : List Btn
  passwordWait : Option Nat
  step2Buttons : List Btn
  fallbackSubmit : Bool
  redirected : Bool
  navAfterSubmit : Option Nat
  finalUrl : String
deriving DecidableEq

/-- Outcome environment for the report-export flow.  `cdpCompleteAt` and
`tmpFileAt` are the times (relative to the start of the download wait
loop) at which the CDP download event fires and at which a fresh CSV
file becomes visible in /tmp; `none` means never. -/
structure ReportEnv where
  gotoReports : Option Nat
  dateRangeDropdown : Bool
  clickDateRange : Bool
  rangeOptions : List String
  exportControls : List String
  cdpCompleteAt : Option Nat
  cdpFilename : String
  tmpFileAt : Option Nat
  tmpFilename : String
  fileBytes : Option (List Nat)
deriving DecidableEq

/-- Whole-run environment: browser launch outcome, the two flow
environments, the outcomes of the (up to two) browser.close() calls,
and the wall-clock at run start in ms since epoch. -/
structure ScrapeEnv where
  launchOk : Bool
  login : LoginEnv
  report : ReportEnv
  close1 : Bool
  close2 : Bool
  closeErrMsg : String
  baseMs : Int
deriving DecidableEq

/-- ScraperOptions from lib/types.ts (headless flag omitted: it only
affects browser launch arguments). -/
structure ScraperOptions where
  username : String
  password : String
  reportDays : Nat
  timeout : Option Nat := none
deriving DecidableEq

/-- The metadata record of a successful ScraperResult; ISO strings are
modelled as ms since epoch. -/
structure ReportRange where
  startDate : Int
  endDate : Int
  downloadedAt : Int
deriving DecidableEq

/-- ScraperResult from lib/types.ts. -/
structure ScraperResult where
  success : Bool
  csvBuffer : Option (List Nat) := none
  error : Option String := none
  metadata : Option ReportRange := none
deriving DecidableEq

/-- Observable trace of one `scrapeTandemSource` call: its result, how
many times `browser.close()` was attempted, the elapsed ms of the core
flows on success, and the page default timeout that was installed. -/
structure RunTrace where
  result : ScraperResult
  closeAttempts : Nat
  elapsedMs : Nat
  defaultTimeout : Option Nat
deriving DecidableEq

/-- Message used for puppeteer navigation timeouts. -/
def navTimeoutMsg : String := "Navigation timeout exceeded"

/-- Message used for puppeteer waitForSelector timeouts. -/
def selTimeoutMsg : String := "Waiting for selector timed out"

/-- An awaited operation with an explicit per-operation timeout: it
succeeds (returning its duration) iff it completes within the bound. -/
def waitStep (res : Option Nat) (bound : Nat) (msg : String) : Except String Nat :=
  match res with
  | some t => if t ≤ bound then Except.ok t else Except.error msg
  | none => Except.error msg

/-- Extra delay contributed by the cookie-consent step: 1000 ms iff a
consent button was found and clicked. -/
def cookieTime (env : LoginEnv) : Nat :=
  if (env.cookieButtons.find? cookieMatch).isSome then 1000 else 0

/-- The country/language interstitial.  Selecting the country and
language options never fails (a missing match falls back to the first
option, a missing first option is a no-op); the two dropdown clicks can
throw, and a missing Continue button throws. -/
def interstitialPhase (env : LoginEnv) : Except String Nat :=
  if env.countryInterstitial then
    if env.clickCountry then
      if env.clickLanguage then
        if (env.continueButtons.find? contMatch).isSome then Except.ok 6000
        else Except.error "Could not find Continue button"
      else Except.error "No element found for selector: #preferredLanguage"
    else Except.error "No element found for selector: #country"
  else Except.ok 0

/-- If the SPA has not client-side-navigated to the login page, wait for
a navigation (30 s bound). -/
def loginNavStep (env : LoginEnv) : Except String Nat :=
  if env.onLoginPage then Except.ok 0
  else waitStep env.navToLogin 30000 navTimeoutMsg

/-- Reach the SSO page and verify the URL: the source checks that the
full URL contains the substring "sso.tandemdiabetes.com". -/
def ssoPhase (env : LoginEnv) : Except String Nat :=
  match loginNavStep env with
  | Except.error e => Except.error e
  | Except.ok t =>
    if strIncludes env.ssoUrl "sso.tandemdiabetes.com" then Except.ok t
    else Except.error "Did not redirect to SSO login page"

/-- The submit click after the password: heuristic button scan, falling
back to a generic submit-selector click that throws if absent. -/
def submitStep (env : LoginEnv) : Except String Unit :=
  if (env.step2Buttons.find? submitMatch).isSome then Except.ok ()
  else if env.fallbackSubmit then Except.ok ()
  else Except.error "No element found for selector: button[type=submit], input[type=submit]"

/-- After submitting, either the SPA already redirected client-side or
an explicit navigation wait (60 s bound) is needed. -/
def afterSubmitNav (env : LoginEnv) : Except String Nat :=
  if env.redirected then Except.ok 0
  else waitStep env.navAfterSubmit 60000 navTimeoutMsg

/-- Credential entry: username field wait (10 s), mandatory "Next"
button click, 2 s pause, password field wait (10 s), submit click, 2 s
pause, optional navigation, and the final origin-host check. -/
def credPhase (env : LoginEnv) : Except String Nat :=
  match waitStep env.usernameWait 10000 selTimeoutMsg with
  | Except.error e => Except.error e
  | Except.ok tu =>
    if (env.step1Buttons.find? nextMatch).isSome then
      match waitStep env.passwordWait 10000 selTimeoutMsg with
      | Except.error e => Except.error e
      | Except.ok tp =>
        match submitStep env with
        | Except.error e => Except.error e
        | Except.ok _ =>
          match afterSubmitNav env with
          | Except.error e => Except.error e
          | Except.ok tn =>
            if strIncludes env.finalUrl "source.tandemdiabetes.com" then
              Except.ok (tu + 2000 + tp + 2000 + tn)
            else
              Except.error "Login failed - did not redirect back to source.tandemdiabetes.com"
    else Except.error "Could not find Next button"

/-- performLogin from the scraper: navigate to the root (60 s bound),
best-effort cookie consent, optional country/language interstitial,
reach and verify the SSO page, then credential entry. -/
def performLogin (env : LoginEnv) (username password : String) : Except String Nat :=
  match waitStep env.gotoRoot 60000 navTimeoutMsg with
  | Except.error e => Except.error e
  | Except.ok t0 =>
    match interstitialPhase env with
    | Except.error e => Except.error e
    | Except.ok ti =>
      match ssoPhase env with
      | Except.error e => Except.error e
      | Except.ok ts =>
        match credPhase env with
        | Except.error e => Except.error e
        | Except.ok tc => Except.ok (t0 + cookieTime env + ti + ts + tc)

/-- Time spent in the best-effort date-range configuration step: the
whole step is wrapped in a try/catch, so it never fails; a click error
aborts it silently. -/
def rangePhaseTime (env : ReportEnv) : Nat :=
  if env.dateRangeDropdown then
    if env.clickDateRange then
      1000 + (if (rangeSelection env.rangeOptions).isSome then 1000 else 0)
    else 0
  else 0

/-- Has the CDP download-completed event fired by loop time `u`. -/
def cdpReady (env : ReportEnv) (u : Nat) : Bool :=
  match env.cdpCompleteAt with
  | some t => t ≤ u
  | none => false

/-- Has the /tmp poll found a fresh CSV file by loop time `u`. -/
def tmpReady (env : ReportEnv) (u : Nat) : Bool :=
  match env.tmpFileAt with
  | some t => t ≤ u
  | none => false

/-- One poll of the download wait loop: CDP event first, then the /tmp
fallback. -/
def pollAt (env : ReportEnv) (u : Nat) : Option String :=
  if cdpReady env u then some env.cdpFilename
  else if tmpReady env u then some env.tmpFilename
  else none

/-- The download wait loop: while no filename and elapsed < 60000 ms,
poll and sleep 500 ms.  Returns the filename found (if any) and the
loop time at exit.  The fuel argument only bounds the recursion; 121
units are enough to reach the 60 s cutoff from 0. -/
def waitLoop (env : ReportEnv) : Nat → Nat → Option String × Nat
  | 0, u => (none, u)
  | fuel + 1, u =>
    if u < 60000 then
      match pollAt env u with
      | some f => (some f, u)
      | none => waitLoop env fuel (u + 500)
    else (none, u)

/-- The download wait loop as run by the scraper, from loop time 0. -/
def downloadWait (env : ReportEnv) : Option String × Nat :=
  waitLoop env 121 0

/-- downloadReport from the scraper: navigate to the reports view (60 s
bound), best-effort range selection, 2 s settle, export click (fatal if
the control is missing), 1 s pause with best-effort modal confirmation,
the download wait loop, then read the temp file. -/
def downloadReport (env : ReportEnv) (reportDays : Nat) : Except String (List Nat × Nat) :=
  match waitStep env.gotoReports 60000 navTimeoutMsg with
  | Except.error e => Except.error e
  | Except.ok t0 =>
    if (env.exportControls.find? exportMatch).isSome then
      match downloadWait env with
      | (some _f, u) =>
        match env.fileBytes with
        | some bytes => Except.ok (bytes, t0 + rangePhaseTime env + 2000 + 1000 + u)
        | none => Except.error "ENOENT: no such file or directory"
      | (none, _u) => Except.error "Download did not complete within 60 seconds"
    else Except.error "Could not find Export button"

/-- One ms-per-day constant for the date-range computation. -/
def dayMs : Int := 86400000

/-- The login flow followed by the export flow, propagating the first
error and accumulating elapsed time. -/
def coreRun (env : ScrapeEnv) (options : ScraperOptions) : Except String (List Nat × Nat) :=
  match performLogin env.login options.username options.password with
  | Except.error e => Except.error e
  | Except.ok t1 =>
    match downloadReport env.report options.reportDays with
    | Except.error e => Except.error e
    | Except.ok (bytes, t2) => Except.ok (bytes, t1 + t2)

/-- Metadata of a successful run: both dates are taken at the moment of
success (run start plus elapsed), and the start is the end minus
reportDays days. -/
def successMeta (env : ScrapeEnv) (options : ScraperOptions) (elapsed : Nat) : ReportRange :=
  { startDate := env.baseMs + (elapsed : Int) - (options.reportDays : Int) * dayMs
    endDate := env.baseMs + (elapsed : Int)
    downloadedAt := env.baseMs + (elapsed : Int) }

/-- scrapeTandemSource, the orchestrator.  On launch failure the catch
block finds `browser` null and attempts no close.  On a core error the
catch closes once (a close error there is swallowed) and returns the
primary error.  On core success the browser is closed before `browser`
is nulled: if that close throws, control jumps to the catch, which sees
`browser` still non-null, closes a second time, and returns a Failure
carrying the close error. -/
def scrapeTandemSource (env : ScrapeEnv) (options : ScraperOptions) : RunTrace :=
  if env.launchOk then
    match coreRun env options with
    | Except.error e =>
      { result := { success := false, csvBuffer := none, error := some e, metadata := none }
        closeAttempts := 1
        elapsedMs := 0
        defaultTimeout := some (options.timeout.getD 180000) }
    | Except.ok (bytes, elapsed) =>
      if env.close1 then
        { result := { success := true, csvBuffer := some bytes, error := none,
                      metadata := some (successMeta env options elapsed) }
          closeAttempts := 1
          elapsedMs := elapsed
          defaultTimeout := some (options.timeout.getD 180000) }
      else
        { result := { success := false, csvBuffer := none, error := some env.closeErrMsg, metadata := none }
          closeAttempts := 2
          elapsedMs := elapsed
          defaultTimeout := some (options.timeout.getD 180000) }
  else
    { result := { success := false, csvBuffer := none, error := some "Failed to launch browser", metadata := none }
      closeAttempts := 0
      elapsedMs := 0
      defaultTimeout := none }

/-- Decidable per-step success: the awaited operation completed within
its bound. -/
def withinOk (o : Option Nat) (bound : Nat) : Bool :=
  match o with
  | some t => decide (t ≤ bound)
  | none => false

/-- Every login-flow step succeeds within its own timeout. -/
def loginOk (env : LoginEnv) : Bool :=
  withinOk env.gotoRoot 60000 &&
  (!env.countryInterstitial ||
     (env.clickCountry && env.clickLanguage && (env.continueButtons.find? contMatch).isSome)) &&
  (env.onLoginPage || withinOk env.navToLogin 30000) &&
  strIncludes env.ssoUrl "sso.tandemdiabetes.com" &&
  withinOk env.usernameWait 10000 &&
  (env.step1Buttons.find? nextMatch).isSome &&
  withinOk env.passwordWait 10000 &&
  ((env.step2Buttons.find? submitMatch).isSome || env.fallbackSubmit) &&
  (env.redirected || withinOk env.navAfterSubmit 60000) &&
  strIncludes env.finalUrl "source.tandemdiabetes.com"

/-- Every export-flow step succeeds within its own timeout. -/
def reportOk (env : ReportEnv) : Bool :=
  withinOk env.gotoReports 60000 &&
  (env.exportControls.find? exportMatch).isSome &&
  (downloadWait env).1.isSome &&
  env.fileBytes.isSome

/-- Every step of the whole run succeeds: launch, every login and
export step, and the final browser close. -/
def stepsOk (env : ScrapeEnv) : Bool :=
  env.launchOk && loginOk env.login && reportOk env.report && env.close1

/-- Host (authority) component of a URL: the text between the scheme
separator and the next path, query or fragment delimiter. -/
def afterSchemeAux : List Char → Option (List Char)
  | [] => none
  | c :: rest =>
    if ("://".data).isPrefixOf (c :: rest) then some (rest.drop 2)
    else afterSchemeAux rest

/-- Host of a URL string; empty if the string has no scheme separator. -/
def urlHost (url : String) : String :=
  match afterSchemeAux url.data with
  | some rest => String.mk (rest.takeWhile (fun c => !(c == '/') && !(c == '?') && !(c == '#')))
  | none => ""

/-- A request's authentication-relevant headers, as lib/auth.ts reads
them: the Authorization header and the X-API-Key header. -/
structure ApiRequest where
  authorization : Option String
  xApiKey : Option String
deriving DecidableEq

/-- The X-API-Key comparison from validateApiKey: an absent or empty
header is falsy and rejected. -/
def xKeyCheck (x : Option String) (key : String) : Bool :=
  match x with
  | some v => if v = "" then false else decide (v = key)
  | none => false

/-- validateApiKey from lib/auth.ts: deny when API_KEY is unset (or
empty, which is falsy in JS); if a non-empty Authorization header
starts with "Bearer ", compare its token and return; otherwise compare
the X-API-Key header. -/
def validateApiKey (apiKey : Option String) (req : ApiRequest) : Bool :=
  match apiKey with
  | none => false
  | some key =>
    if key = "" then false
    else
      match req.authorization with
      | some auth =>
        if strStartsWith auth "Bearer " then decide (strDrop auth 7 = key)
        else xKeyCheck req.xApiKey key
      | none => xKeyCheck req.xApiKey key

/-- The claim's reading of validateApiKey, written from the claim's own
words for comparison: the request carries the exact key in a Bearer
Authorization header or in an X-API-Key header. -/
def claimApiKeyOk (apiKey : Option String) (req : ApiRequest) : Bool :=
  match apiKey with
  | none => false
  | some key =>
    (req.authorization == some ("Bearer " ++ key)) || (req.xApiKey == some key)

/-- HTTP response of the sync route: status code and success flag. -/
structure SyncResponse where
  status : Nat
  success : Bool
deriving DecidableEq

/-- Outcome of awaiting performSync: it resolves with a success flag or
throws. -/
inductive SyncOutcome where
  | resolved (success : Bool)
  | threw (msg : String)
deriving DecidableEq

/-- Observable trace of one POST /api/sync call: the module-level
syncInProgress flag after the call, the response, and whether
performSync was invoked. -/
structure PostTrace where
  flagAfter : Bool
  response : SyncResponse
  syncStarted : Bool
deriving DecidableEq

/-- The POST /api/sync handler: API-key check (401), in-flight check
(409, flag untouched, no sync started), then performSync inside a
try/finally that clears the flag on resolution and on throw. -/
def POST (apiKey : Option String) (req : ApiRequest) (syncInProgress : Bool)
    (sync : SyncOutcome) : PostTrace :=
  if validateApiKey apiKey req = false then
    { flagAfter := syncInProgress, response := { status := 401, success := false }, syncStarted := false }
  else if syncInProgress then
    { flagAfter := syncInProgress, response := { status := 409, success := false }, syncStarted := false }
  else
    match sync with
    | SyncOutcome.resolved s =>
      { flagAfter := false, response := { status := if s then 200 else 500, success := s }, syncStarted := true }
    | SyncOutcome.threw _ =>
      { flagAfter := false, response := { status := 500, success := false }, syncStarted := true }

/-- A login environment in which every step succeeds: no cookie banner,
no interstitial, SPA already on the login page, a two-step form. -/
def okLogin : LoginEnv :=
  { gotoRoot := some 1000
    cookieButtons := []
    countryInterstitial := false
    clickCountry := true
    countryOptions := []
    clickLanguage := true
    languageOptions := []
    continueButtons := []
    onLoginPage := true
    navToLogin := none
    ssoUrl := "https://sso.tandemdiabetes.com/auth/login"
    usernameWait := some 100
    step1Buttons := [{ text := "Next" }]
    passwordWait := some 100
    step2Buttons := [{ text := "Sign In" }]
    fallbackSubmit := true
    redirected := true
    navAfterSubmit := none
    finalUrl := "https://source.tandemdiabetes.com/home" }

/-- A report environment in which every step succeeds; the downloaded
file holds the bytes of "CSV\n". -/
def okReport : ReportEnv :=
  { gotoReports := some 1000
    dateRangeDropdown := true
    clickDateRange := true
    rangeOptions := ["2 Weeks", "1 Week", "1 Month"]
    exportControls := ["Export CSV"]
    cdpCompleteAt := some 1000
    cdpFilename := "CSV_report.csv"
    tmpFileAt := none
    tmpFilename := ""
    fileBytes := some [67, 83, 86, 10] }

/-- A whole-run environment in which everything succeeds. -/
def okEnv : ScrapeEnv :=
  { launchOk := true
    login := okLogin
    report := okReport
    close1 := true
    close2 := true
    closeErrMsg := "Protocol error: Connection closed."
    baseMs := 1760000000000 }

/-- A well-formed request: 7-day window, default timeout. -/
def okOpts : ScraperOptions :=
  { username := "user@example.com", password := "pw", reportDays := 7, timeout := none }

/-- Every step succeeds but the downloaded file is empty. -/
def envEmptyFile : ScrapeEnv :=
  { okEnv with report := { okReport with fileBytes := some [] } }

/-- Every scraping step succeeds but the first browser.close() throws. -/
def envCloseFails : ScrapeEnv :=
  { okEnv with close1 := false }

/-- Every step succeeds within its own bound, but slowly: the run takes
far longer than the 180000 ms default overall timeout. -/
def envSlow : ScrapeEnv :=
  { okEnv with
    login := { okLogin with
      gotoRoot := some 59000
      onLoginPage := false
      navToLogin := some 29000
      usernameWait := some 9000
      passwordWait := some 9000
      redirected := false
      navAfterSubmit := some 59000 }
    report := { okReport with
      gotoReports := some 59000
      cdpCompleteAt := some 59500 } }

/-- The URL after leaving the landing page has a non-IdP host but
embeds the IdP host string in its query. -/
def envHostBypass : ScrapeEnv :=
  { okEnv with login := { okLogin with
      ssoUrl := "https://attacker.example/login?redirect=sso.tandemdiabetes.com" } }

/-- A single combined credential form: username and password fields are
both present immediately, and the only button is "Sign In" - nothing
matches the mandatory "Next" scan. -/
def envCombinedForm : ScrapeEnv :=
  { okEnv with login := { okLogin with
      step1Buttons := [{ text := "Sign In", btnType := some "submit" }]
      passwordWait := some 0 } }

/-- Neither download-completion signal ever fires. -/
def envNoDownload : ScrapeEnv :=
  { okEnv with report := { okReport with cdpCompleteAt := none, tmpFileAt := none } }

/-- The country/language interstitial is shown, no option matches the
target locale, and the Continue button is absent. -/
def envNoContinue : ScrapeEnv :=
  { okEnv with login := { okLogin with
      countryInterstitial := true
      countryOptions := ["Canada", "Deutschland"]
      languageOptions := ["French", "German"]
      continueButtons := [] } }

/-- A run that fails the SSO URL check: the URL after the landing page
lacks the IdP substring entirely. -/
def envSsoFail : ScrapeEnv :=
  { okEnv with login := { okLogin with
      ssoUrl := "https://www.tandemdiabetes.com/products" } }

/-- A combined credential form that does expose a "Next"-matching
button: both fields are present immediately. -/
def okCombinedNext : LoginEnv :=
  { okLogin with passwordWait := some 0 }

/-- A request authorized through the X-API-Key header. -/
def reqGood : ApiRequest := { authorization := none, xApiKey := some "secret" }

/-- A successful step decomposes into the option value it completed
with, within the bound. -/
theorem withinOk_some {o : Option Nat} {b : Nat} (h : withinOk o b = true) :
    ∃ t, o = some t ∧ t ≤ b := by
  cases o with
  | none => simp [withinOk] at h
  | some t => exact ⟨t, rfl, by simpa [withinOk] using h⟩

/-- A step that completed within its bound produces an ok result. -/
theorem waitStep_of_withinOk {o : Option Nat} {b : Nat} (msg : String)
    (h : withinOk o b = true) : ∃ t, waitStep o b msg = Except.ok t := by
  obtain ⟨t, ho, hb⟩ := withinOk_some h
  exact ⟨t, by simp [waitStep, ho, hb]⟩

/-- The interstitial phase succeeds when it is absent, or when its two
dropdown clicks succeed and a Continue button exists. -/
theorem interstitialPhase_ok {env : LoginEnv}
    (h : (!env.countryInterstitial ||
      (env.clickCountry && env.clickLanguage && (env.continueButtons.find? contMatch).isSome)) = true) :
    interstitialPhase env = Except.ok (if env.countryInterstitial then 6000 else 0) := by
  cases hc : env.countryInterstitial with
  | false => simp [interstitialPhase, hc]
  | true =>
    rw [hc] at h
    simp only [Bool.not_true, Bool.false_or, Bool.and_eq_true] at h
    obtain ⟨⟨h1, h2⟩, h3⟩ := h
    simp [interstitialPhase, hc, h1, h2, h3]

/-- The SSO phase succeeds when the page is reached and the URL carries
the IdP substring. -/
theorem ssoPhase_ok {env : LoginEnv}
    (h1 : (env.onLoginPage || withinOk env.navToLogin 30000) = true)
    (h2 : strIncludes env.ssoUrl "sso.tandemdiabetes.com" = true) :
    ∃ t, ssoPhase env = Except.ok t := by
  cases hp : env.onLoginPage with
  | true => exact ⟨0, by simp [ssoPhase, loginNavStep, hp, h2]⟩
  | false =>
    rw [hp] at h1
    simp only [Bool.false_or] at h1
    obtain ⟨t, hw⟩ := waitStep_of_withinOk navTimeoutMsg h1
    exact ⟨t, by simp [ssoPhase, loginNavStep, hp, hw, h2]⟩

/-- The submit click succeeds when the heuristic finds a button or the
fallback selector click works. -/
theorem submitStep_ok {env : LoginEnv}
    (h : ((env.step2Buttons.find? submitMatch).isSome || env.fallbackSubmit) = true) :
    submitStep env = Except.ok () := by
  cases hs : (env.step2Buttons.find? submitMatch).isSome with
  | true => simp [submitStep, hs]
  | false =>
    rw [hs] at h
    simp only [Bool.false_or] at h
    simp [submitStep, hs, h]

/-- The post-submit navigation succeeds if the SPA redirected or the
explicit wait completes in time. -/
theorem afterSubmitNav_ok {env : LoginEnv}
    (h : (env.redirected || withinOk env.navAfterSubmit 60000) = true) :
    ∃ t, afterSubmitNav env = Except.ok t := by
  cases hr : env.redirected with
  | true => exact ⟨0, by simp [afterSubmitNav, hr]⟩
  | false =>
    rw [hr] at h
    simp only [Bool.false_or] at h
    obtain ⟨t, hw⟩ := waitStep_of_withinOk navTimeoutMsg h
    exact ⟨t, by simp [afterSubmitNav, hr, hw]⟩

/-- The credential phase succeeds for any password-field appearance
time within the 10 s re-probe bound, regardless of the form shape. -/
theorem credPhase_ok {env : LoginEnv} {t : Nat}
    (h5 : withinOk env.usernameWait 10000 = true)
    (h6 : (env.step1Buttons.find? nextMatch).isSome = true)
    (h7 : env.passwordWait = some t) (h7b : t ≤ 10000)
    (h8 : ((env.step2Buttons.find? submitMatch).isSome || env.fallbackSubmit) = true)
    (h9 : (env.redirected || withinOk env.navAfterSubmit 60000) = true)
    (h10 : strIncludes env.finalUrl "source.tandemdiabetes.com" = true) :
    ∃ T, credPhase env = Except.ok T := by
  obtain ⟨tu, hwu⟩ := waitStep_of_withinOk selTimeoutMsg h5
  have hwp : waitStep env.passwordWait 10000 selTimeoutMsg = Except.ok t := by
    simp [waitStep, h7, h7b]
  have hsub := submitStep_ok h8
  obtain ⟨tn, hnav⟩ := afterSubmitNav_ok h9
  exact ⟨tu + 2000 + t + 2000 + tn, by simp [credPhase, hwu, hwp, hsub, hnav, h6, h10]⟩

/-- performLogin succeeds when its four phases succeed. -/
theorem performLogin_ok {env : LoginEnv} (u p : String)
    (h1 : withinOk env.gotoRoot 60000 = true)
    (h2 : (!env.countryInterstitial ||
      (env.clickCountry && env.clickLanguage && (env.continueButtons.find? contMatch).isSome)) = true)
    (h3 : (env.onLoginPage || withinOk env.navToLogin 30000) = true)
    (h4 : strIncludes env.ssoUrl "sso.tandemdiabetes.com" = true)
    (hcred : ∃ Tc, credPhase env = Except.ok Tc) :
    ∃ T, performLogin env u p = Except.ok T := by
  obtain ⟨t0, hw0⟩ := waitStep_of_withinOk navTimeoutMsg h1
  have hint := interstitialPhase_ok h2
  obtain ⟨ts, hsso⟩ := ssoPhase_ok h3 h4
  obtain ⟨tc, hc⟩ := hcred
  refine ⟨t0 + cookieTime env + (if env.countryInterstitial then 6000 else 0) + ts + tc, ?_⟩
  simp [performLogin, hw0, hint, hsso, hc]

/-- The bundled per-step success predicate implies login success. -/
theorem performLogin_ok_of_loginOk {env : LoginEnv} (u p : String)
    (h : loginOk env = true) : ∃ T, performLogin env u p = Except.ok T := by
  simp only [loginOk, Bool.and_eq_true] at h
  obtain ⟨⟨⟨⟨⟨⟨⟨⟨⟨h1, h2⟩, h3⟩, h4⟩, h5⟩, h6⟩, h7⟩, h8⟩, h9⟩, h10⟩ := h
  obtain ⟨tp, hp, hpb⟩ := withinOk_some h7
  exact performLogin_ok u p h1 h2 h3 h4 (credPhase_ok h5 h6 hp hpb h8 h9 h10)

/-- downloadReport succeeds with the file's bytes when navigation, the
export control and the download wait all succeed. -/
theorem downloadReport_ok {env : ReportEnv} (d : Nat) {bytes : List Nat}
    (hg : withinOk env.gotoReports 60000 = true)
    (he : (env.exportControls.find? exportMatch).isSome = true)
    (hw : (downloadWait env).1.isSome = true)
    (hb : env.fileBytes = some bytes) :
    ∃ T, downloadReport env d = Except.ok (bytes, T) := by
  obtain ⟨t0, hw0⟩ := waitStep_of_withinOk navTimeoutMsg hg
  rcases hdw : downloadWait env with ⟨fo, u⟩
  rw [hdw] at hw
  cases fo with
  | none => simp at hw
  | some f =>
    exact ⟨t0 + rangePhaseTime env + 2000 + 1000 + u, by simp [downloadReport, hw0, he, hdw, hb]⟩

/-- Core composition, success case. -/
theorem coreRun_ok {env : ScrapeEnv} {opts : ScraperOptions} {T1 T2 : Nat} {bytes : List Nat}
    (hl : performLogin env.login opts.username opts.password = Except.ok T1)
    (hd : downloadReport env.report opts.reportDays = Except.ok (bytes, T2)) :
    coreRun env opts = Except.ok (bytes, T1 + T2) := by
  simp [coreRun, hl, hd]

/-- Core composition, login failure. -/
theorem coreRun_error_login {env : ScrapeEnv} {opts : ScraperOptions} {e : String}
    (hl : performLogin env.login opts.username opts.password = Except.error e) :
    coreRun env opts = Except.error e := by
  simp [coreRun, hl]

/-- Core composition, export failure. -/
theorem coreRun_error_report {env : ScrapeEnv} {opts : ScraperOptions} {T1 : Nat} {e : String}
    (hl : performLogin env.login opts.username opts.password = Except.ok T1)
    (hd : downloadReport env.report opts.reportDays = Except.error e) :
    coreRun env opts = Except.error e := by
  simp [coreRun, hl, hd]

/-- The orchestrator's trace when the core fails: one close attempt,
the primary error preserved whatever the close outcomes are. -/
theorem scrape_error {env : ScrapeEnv} {opts : ScraperOptions} {e : String}
    (h : env.launchOk = true) (hc : coreRun env opts = Except.error e) :
    scrapeTandemSource env opts =
      { result := { success := false, csvBuffer := none, error := some e, metadata := none }
        closeAttempts := 1
        elapsedMs := 0
        defaultTimeout := some (opts.timeout.getD 180000) } := by
  simp [scrapeTandemSource, h, hc]

/-- The orchestrator's trace when the core and the first close both
succeed. -/
theorem scrape_ok {env : ScrapeEnv} {opts : ScraperOptions} {bytes : List Nat} {elapsed : Nat}
    (h : env.launchOk = true) (hc : coreRun env opts = Except.ok (bytes, elapsed))
    (hcl : env.close1 = true) :
    scrapeTandemSource env opts =
      { result := { success := true, csvBuffer := some bytes, error := none,
                    metadata := some (successMeta env opts elapsed) }
        closeAttempts := 1
        elapsedMs := elapsed
        defaultTimeout := some (opts.timeout.getD 180000) } := by
  simp [scrapeTandemSource, h, hc, hcl]

/-- The orchestrator's trace when the core succeeds but the first close
throws: a second close attempt, and the Failure carries the close
error. -/
theorem scrape_close_fail {env : ScrapeEnv} {opts : ScraperOptions} {bytes : List Nat} {elapsed : Nat}
    (h : env.launchOk = true) (hc : coreRun env opts = Except.ok (bytes, elapsed))
    (hcl : env.close1 = false) :
    scrapeTandemSource env opts =
      { result := { success := false, csvBuffer := none, error := some env.closeErrMsg, metadata := none }
        closeAttempts := 2
        elapsedMs := elapsed
        defaultTimeout := some (opts.timeout.getD 180000) } := by
  simp [scrapeTandemSource, h, hc, hcl]

/-- When every step of the run succeeds, the trace is the success
record built from the downloaded bytes and some elapsed time. -/
theorem scrape_steps_ok {env : ScrapeEnv} (opts : ScraperOptions) (h : stepsOk env = true) :
    ∃ bytes T, env.report.fileBytes = some bytes ∧
      scrapeTandemSource env opts =
        { result := { success := true, csvBuffer := some bytes, error := none,
                      metadata := some (successMeta env opts T) }
          closeAttempts := 1
          elapsedMs := T
          defaultTimeout := some (opts.timeout.getD 180000) } := by
  simp only [stepsOk, Bool.and_eq_true] at h
  obtain ⟨⟨⟨hl, hlog⟩, hrep⟩, hcl⟩ := h
  obtain ⟨T1, hplog⟩ := performLogin_ok_of_loginOk opts.username opts.password hlog
  simp only [reportOk, Bool.and_eq_true] at hrep
  obtain ⟨⟨⟨hg, he⟩, hwv⟩, hfb⟩ := hrep
  obtain ⟨bytes, hb⟩ := Option.isSome_iff_exists.mp hfb
  obtain ⟨T2, hdl⟩ := downloadReport_ok opts.reportDays hg he hwv hb
  exact ⟨bytes, T1 + T2, hb, scrape_ok hl (coreRun_ok hplog hdl) hcl⟩

/-- The download wait loop with both signals silent walks in 500 ms
strides to the 60 s cutoff and exits there with nothing found,
whatever fuel at least covers the stride count. -/
theorem waitLoop_noSignal {env : ReportEnv}
    (h1 : env.cdpCompleteAt = none) (h2 : env.tmpFileAt = none) :
    ∀ fuel u, 500 ∣ u → 60500 ≤ u + 500 * fuel →
      waitLoop env fuel u = (none, max u 60000) := by
  intro fuel
  induction fuel with
  | zero =>
    intro u hd hb
    have hu : 60000 ≤ u := by omega
    simp [waitLoop, Nat.max_eq_left hu]
  | succ n ih =>
    intro u hd hb
    by_cases hu : u < 60000
    · have hpoll : pollAt env u = none := by
        simp [pollAt, cdpReady, tmpReady, h1, h2]
      have hrec := ih (u + 500) (by omega) (by omega)
      have hmax : max (u + 500) 60000 = max u 60000 := by omega
      simp [waitLoop, hu, hpoll, hrec, hmax]
    · have hu' : 60000 ≤ u := by omega
      simp [waitLoop, hu, Nat.max_eq_left hu']

/-- Whether the X-API-Key comparison accepts is exactly whether the
header equals the (non-empty) key. -/
theorem xKeyCheck_iff {x : Option String} {k : String} (hk : k ≠ "") :
    xKeyCheck x k = true ↔ x = some k := by
  cases x with
  | none => simp [xKeyCheck]
  | some v =>
    by_cases hv : v = ""
    · subst hv
      simp only [xKeyCheck, if_pos rfl, Option.some.injEq]
      constructor
      · intro h; exact absurd h (by simp)
      · intro h; exact absurd h.symm hk
    · simp [xKeyCheck, hv]

/-- C1 (amended): for every valid request (reportDays ≥ 1) in which
every step of the run succeeds within its timeout, scrapeTandemSource
returns Success carrying exactly the downloaded file's bytes —
non-empty provided the downloaded file itself is non-empty — and a
metadata date range [now − reportDays days, now] whose end is ≥ its
start and whose span equals reportDays days.  (The source never checks
the buffer for emptiness, so non-emptiness must come from the file.) -/
theorem scrape_success_range (env : ScrapeEnv) (opts : ScraperOptions)
    (hsteps : stepsOk env = true) (hdays : 1 ≤ opts.reportDays)
    (bytes : List Nat) (hbytes : env.report.fileBytes = some bytes) (hne : bytes ≠ []) :
    (scrapeTandemSource env opts).result.success = true ∧
    (scrapeTandemSource env opts).result.csvBuffer = some bytes ∧
    bytes ≠ [] ∧
    ∃ m, (scrapeTandemSource env opts).result.metadata = some m ∧
      m.startDate ≤ m.endDate ∧
      m.endDate - m.startDate = (opts.reportDays : Int) * dayMs := by
  obtain ⟨bytes', T, hb', hscr⟩ := scrape_steps_ok opts hsteps
  rw [hbytes] at hb'
  injection hb' with hbb
  subst hbb
  rw [hscr]
  refine ⟨rfl, rfl, hne, successMeta env opts T, rfl, ?_, ?_⟩
  · show env.baseMs + (T : Int) - (opts.reportDays : Int) * dayMs ≤ env.baseMs + (T : Int)
    exact sub_le_self _ (mul_nonneg (Int.natCast_nonneg _) (by norm_num [dayMs]))
  · show env.baseMs + (T : Int) - (env.baseMs + (T : Int) - (opts.reportDays : Int) * dayMs) =
      (opts.reportDays : Int) * dayMs
    exact sub_sub_cancel _ _

/-- C1 witness: the fully successful concrete run with a 4-byte file
and a 7-day window. -/
theorem scrape_success_range_witness :
    (scrapeTandemSource okEnv okOpts).result.success = true ∧
    (scrapeTandemSource okEnv okOpts).result.csvBuffer = some [67, 83, 86, 10] ∧
    ([67, 83, 86, 10] : List Nat) ≠ [] ∧
    ∃ m, (scrapeTandemSource okEnv okOpts).result.metadata = some m ∧
      m.startDate ≤ m.endDate ∧
      m.endDate - m.startDate = (okOpts.reportDays : Int) * dayMs :=
  scrape_success_range okEnv okOpts (by decide) (by decide) [67, 83, 86, 10] rfl (by decide)

/-- C1 counterexample: every step succeeds for a valid 7-day request,
yet the run returns Success with an empty byte buffer, because the
downloaded file was empty — the claim's unconditional non-emptiness
fails. -/
theorem scrape_empty_buffer_cex :
    stepsOk envEmptyFile = true ∧
    1 ≤ okOpts.reportDays ∧
    (scrapeTandemSource envEmptyFile okOpts).result.success = true ∧
    (scrapeTandemSource envEmptyFile okOpts).result.csvBuffer = some ([] : List Nat) := by
  decide

/-- C2 (amended): when the scrape itself fails (login or export), the
session close is attempted exactly once, the close outcome never
changes the returned Failure, and the primary error is preserved; when
the scrape and the first close succeed, the close is attempted exactly
once and the Success is returned.  (A close failure after a successful
scrape, by contrast, triggers a second attempt and replaces the
result — see the counterexample.) -/
theorem close_guarded (env : ScrapeEnv) (opts : ScraperOptions) (h : env.launchOk = true) :
    (∀ e, coreRun env opts = Except.error e →
      (scrapeTandemSource env opts).closeAttempts = 1 ∧
      (scrapeTandemSource env opts).result.success = false ∧
      (scrapeTandemSource env opts).result.error = some e) ∧
    (∀ bytes T, coreRun env opts = Except.ok (bytes, T) → env.close1 = true →
      (scrapeTandemSource env opts).closeAttempts = 1 ∧
      (scrapeTandemSource env opts).result.success = true) := by
  constructor
  · intro e hc
    rw [scrape_error h hc]
    exact ⟨rfl, rfl, rfl⟩
  · intro bytes T hc hcl
    rw [scrape_ok h hc hcl]
    exact ⟨rfl, rfl⟩

/-- C2 witness: a login failure leads to exactly one close attempt and
the login error is returned. -/
theorem close_guarded_witness :
    (scrapeTandemSource envSsoFail okOpts).closeAttempts = 1 ∧
    (scrapeTandemSource envSsoFail okOpts).result.success = false ∧
    (scrapeTandemSource envSsoFail okOpts).result.error = some "Did not redirect to SSO login page" :=
  (close_guarded envSsoFail okOpts (by decide)).1 "Did not redirect to SSO login page" rfl

/-- C2 counterexample: the scrape succeeds, the first browser close
throws — the orchestrator then attempts a second close (two attempts,
not one) and returns Failure carrying the close error, discarding the
successful result. -/
theorem close_failure_overwrites_cex :
    coreRun envCloseFails okOpts = Except.ok ([67, 83, 86, 10], 12200) ∧
    (scrapeTandemSource envCloseFails okOpts).closeAttempts = 2 ∧
    (scrapeTandemSource envCloseFails okOpts).result.success = false ∧
    (scrapeTandemSource envCloseFails okOpts).result.error =
      some "Protocol error: Connection closed." :=
  ⟨rfl, by decide, by decide, by decide⟩

/-- C3 (amended): the orchestrator installs the request timeout
(180000 ms when unspecified) only as the page's default per-operation
and per-navigation timeout; it enforces no ceiling spanning the whole
run — whenever every step succeeds within its own bound the run
returns Success, regardless of the total elapsed time. -/
theorem page_timeouts_no_ceiling (env : ScrapeEnv) (opts : ScraperOptions)
    (h : env.launchOk = true) :
    (scrapeTandemSource env opts).defaultTimeout = some (opts.timeout.getD 180000) ∧
    (stepsOk env = true →
      (scrapeTandemSource env opts).result.success = true ∧
      (scrapeTandemSource env opts).result.error = none) := by
  constructor
  · cases hc : coreRun env opts with
    | error e => rw [scrape_error h hc]
    | ok v =>
      rcases v with ⟨bytes, T⟩
      cases hcl : env.close1 with
      | true => rw [scrape_ok h hc hcl]
      | false => rw [scrape_close_fail h hc hcl]
  · intro hs
    obtain ⟨bytes, T, hb, hscr⟩ := scrape_steps_ok opts hs
    rw [hscr]
    exact ⟨rfl, rfl⟩

/-- C3 witness: concrete run installing the default 180000 ms page
timeout and succeeding. -/
theorem page_timeouts_no_ceiling_witness :
    (scrapeTandemSource okEnv okOpts).defaultTimeout = some (okOpts.timeout.getD 180000) ∧
    (stepsOk okEnv = true →
      (scrapeTandemSource okEnv okOpts).result.success = true ∧
      (scrapeTandemSource okEnv okOpts).result.error = none) :=
  page_timeouts_no_ceiling okEnv okOpts (by decide)

/-- C3 counterexample: every step succeeds within its own per-step
bound but the run takes 292500 ms, well beyond the 180000 ms default
ceiling; no timeout failure occurs — the run is not abandoned and
returns Success. -/
theorem no_overall_ceiling_cex :
    stepsOk envSlow = true ∧
    okOpts.timeout = none ∧
    (scrapeTandemSource envSlow okOpts).elapsedMs = 292500 ∧
    180000 < (scrapeTandemSource envSlow okOpts).elapsedMs ∧
    (scrapeTandemSource envSlow okOpts).result.success = true ∧
    (scrapeTandemSource envSlow okOpts).result.error = none := by
  decide

/-- C4 (code bug): the date-range step searches for the literal option
text "1 Week" no matter what reportDays is (the source carries a TODO
admitting the hardcode), and downloadReport ignores its reportDays
argument entirely: for a 30-day request offering a "1 Month" option the
flow still picks "1 Week", and when no option contains "1 Week" nothing
is selected (the default range is silently kept, never an error). -/
theorem range_selection_hardcoded :
    rangeSelection ["1 Month", "1 Week", "3 Months"] = some "1 Week" ∧
    rangeSelection ["30 days", "90 days"] = none ∧
    ∀ (env : ReportEnv) (d₁ d₂ : Nat), downloadReport env d₁ = downloadReport env d₂ :=
  ⟨by decide, by decide, fun env d₁ d₂ => rfl⟩

/-- C5 (amended): after leaving the landing page the flow fails — and
the run returns Failure with one close attempt — exactly when the
current URL does not contain the substring "sso.tandemdiabetes.com".
The source checks substring containment over the whole URL, not the
URL's host, so a URL whose host is not the identity provider but which
embeds the string elsewhere is accepted (see the counterexample). -/
theorem sso_substring_check (env : ScrapeEnv) (opts : ScraperOptions)
    (h : env.launchOk = true)
    (h1 : withinOk env.login.gotoRoot 60000 = true)
    (h2 : (!env.login.countryInterstitial ||
      (env.login.clickCountry && env.login.clickLanguage &&
        (env.login.continueButtons.find? contMatch).isSome)) = true)
    (h3 : env.login.onLoginPage = true)
    (h4 : strIncludes env.login.ssoUrl "sso.tandemdiabetes.com" = false) :
    (scrapeTandemSource env opts).result.success = false ∧
    (scrapeTandemSource env opts).result.error = some "Did not redirect to SSO login page" ∧
    (scrapeTandemSource env opts).closeAttempts = 1 := by
  obtain ⟨t0, hw0⟩ := waitStep_of_withinOk navTimeoutMsg h1
  have hint := interstitialPhase_ok h2
  have hsso : ssoPhase env.login = Except.error "Did not redirect to SSO login page" := by
    simp [ssoPhase, loginNavStep, h3, h4]
  have hlog : performLogin env.login opts.username opts.password =
      Except.error "Did not redirect to SSO login page" := by
    simp [performLogin, hw0, hint, hsso]
  rw [scrape_error h (coreRun_error_login hlog)]
  exact ⟨rfl, rfl, rfl⟩

/-- C5 witness: a URL with no trace of the IdP string fails the check
and the run returns Failure with one close attempt. -/
theorem sso_substring_check_witness :
    (scrapeTandemSource envSsoFail okOpts).result.success = false ∧
    (scrapeTandemSource envSsoFail okOpts).result.error =
      some "Did not redirect to SSO login page" ∧
    (scrapeTandemSource envSsoFail okOpts).closeAttempts = 1 :=
  sso_substring_check envSsoFail okOpts (by decide) (by decide) (by decide) (by decide) (by decide)

/-- C5 counterexample: the URL after the landing page has host
"attacker.example" — not the identity-provider host — yet contains the
IdP string in its query, so the substring check passes and the run
completes successfully instead of failing with an
UnexpectedRedirectError-class error. -/
theorem sso_host_bypass_cex :
    urlHost envHostBypass.login.ssoUrl = "attacker.example" ∧
    urlHost envHostBypass.login.ssoUrl ≠ "sso.tandemdiabetes.com" ∧
    strIncludes envHostBypass.login.ssoUrl "sso.tandemdiabetes.com" = true ∧
    (scrapeTandemSource envHostBypass okOpts).result.success = true ∧
    (scrapeTandemSource envHostBypass okOpts).result.error = none := by
  decide

/-- C6 (amended): provided the username step exposes a button matching
"next" (text or aria-label), the flow reaches login success for any
time at which the password field becomes visible within the 10 s
re-probe bound — immediately (a combined form) or after a page
transition (a two-step form).  A combined form with no "next"-matching
button, however, fails (see the counterexample). -/
theorem login_two_shapes (env : LoginEnv) (u p : String) (t : Nat)
    (h1 : withinOk env.gotoRoot 60000 = true)
    (h2 : (!env.countryInterstitial ||
      (env.clickCountry && env.clickLanguage && (env.continueButtons.find? contMatch).isSome)) = true)
    (h3 : (env.onLoginPage || withinOk env.navToLogin 30000) = true)
    (h4 : strIncludes env.ssoUrl "sso.tandemdiabetes.com" = true)
    (h5 : withinOk env.usernameWait 10000 = true)
    (h6 : (env.step1Buttons.find? nextMatch).isSome = true)
    (h7 : env.passwordWait = some t) (h7b : t ≤ 10000)
    (h8 : ((env.step2Buttons.find? submitMatch).isSome || env.fallbackSubmit) = true)
    (h9 : (env.redirected || withinOk env.navAfterSubmit 60000) = true)
    (h10 : strIncludes env.finalUrl "source.tandemdiabetes.com" = true) :
    ∃ T, performLogin env u p = Except.ok T :=
  performLogin_ok u p h1 h2 h3 h4 (credPhase_ok h5 h6 h7 h7b h8 h9 h10)

/-- C6 witness: a combined-shape form (password field present
immediately, time 0) with a "Next" button still logs in. -/
theorem login_two_shapes_witness :
    ∃ T, performLogin okCombinedNext "u" "p" = Except.ok T :=
  login_two_shapes okCombinedNext "u" "p" 0 (by decide) (by decide) (by decide) (by decide)
    (by decide) (by decide) rfl (by decide) (by decide) (by decide) (by decide)

/-- C6 counterexample: a single combined credential form whose only
button is "Sign In" — username and password fields both visible — makes
the run fail with "Could not find Next button" instead of reaching
login success: the flow does assume a "Next"-labelled control exists. -/
theorem combined_form_fails_cex :
    envCombinedForm.login.usernameWait = some 100 ∧
    envCombinedForm.login.passwordWait = some 0 ∧
    envCombinedForm.login.step1Buttons.find? nextMatch = none ∧
    (envCombinedForm.login.step2Buttons.find? submitMatch).isSome = true ∧
    (scrapeTandemSource envCombinedForm okOpts).result.success = false ∧
    (scrapeTandemSource envCombinedForm okOpts).result.error =
      some "Could not find Next button" := by
  decide

/-- C7: if neither the CDP download event nor the /tmp poll ever
reports a file, the download wait loop terminates exactly at its
60000 ms bound — neither earlier nor indefinitely (any sufficient fuel
gives the same exit) — and the run returns Failure with the
download-timeout message after one close attempt. -/
theorem download_timeout (env : ScrapeEnv) (opts : ScraperOptions)
    (h : env.launchOk = true)
    (hlog : loginOk env.login = true)
    (hg : withinOk env.report.gotoReports 60000 = true)
    (he : (env.report.exportControls.find? exportMatch).isSome = true)
    (h1 : env.report.cdpCompleteAt = none)
    (h2 : env.report.tmpFileAt = none) :
    downloadWait env.report = (none, 60000) ∧
    (∀ fuel, 121 ≤ fuel → waitLoop env.report fuel 0 = (none, 60000)) ∧
    (scrapeTandemSource env opts).result.success = false ∧
    (scrapeTandemSource env opts).result.error =
      some "Download did not complete within 60 seconds" ∧
    (scrapeTandemSource env opts).closeAttempts = 1 := by
  have hfuel : ∀ fuel, 121 ≤ fuel → waitLoop env.report fuel 0 = (none, 60000) := by
    intro fuel hf
    have hmax : (max 0 60000 : Nat) = 60000 := rfl
    have := waitLoop_noSignal h1 h2 fuel 0 (by omega) (by omega)
    rw [hmax] at this
    exact this
  have hdw : downloadWait env.report = (none, 60000) := hfuel 121 (by omega)
  obtain ⟨T1, hplog⟩ := performLogin_ok_of_loginOk opts.username opts.password hlog
  obtain ⟨t0, hw0⟩ := waitStep_of_withinOk navTimeoutMsg hg
  have hdl : downloadReport env.report opts.reportDays =
      Except.error "Download did not complete within 60 seconds" := by
    simp [downloadReport, hw0, he, hdw]
  have hscr := scrape_error h (coreRun_error_report hplog hdl)
  exact ⟨hdw, hfuel, by rw [hscr], by rw [hscr], by rw [hscr]⟩

/-- C7 witness: the concrete no-signal run exits the loop at 60000 ms
and the run fails with the download-timeout message. -/
theorem download_timeout_witness :
    downloadWait envNoDownload.report = (none, 60000) ∧
    (scrapeTandemSource envNoDownload okOpts).result.success = false ∧
    (scrapeTandemSource envNoDownload okOpts).result.error =
      some "Download did not complete within 60 seconds" ∧
    (scrapeTandemSource envNoDownload okOpts).closeAttempts = 1 :=
  ⟨(download_timeout envNoDownload okOpts (by decide) (by decide) (by decide) (by decide) rfl rfl).1,
   (download_timeout envNoDownload okOpts (by decide) (by decide) (by decide) (by decide) rfl rfl).2.2.1,
   (download_timeout envNoDownload okOpts (by decide) (by decide) (by decide) (by decide) rfl rfl).2.2.2.1,
   (download_timeout envNoDownload okOpts (by decide) (by decide) (by decide) (by decide) rfl rfl).2.2.2.2⟩

/-- C8: with the locale interstitial detected and its two dropdown
clicks succeeding, failing to match the target country or language
option is not an error — the first available option is what gets
clicked, and the phase still succeeds whenever a Continue control
exists — while the absence of a Continue control after the
interstitial was detected makes the run return Failure. -/
theorem interstitial_fallback (env : ScrapeEnv) (opts : ScraperOptions)
    (h : env.launchOk = true)
    (h0 : withinOk env.login.gotoRoot 60000 = true)
    (hc : env.login.countryInterstitial = true)
    (h1 : env.login.clickCountry = true)
    (h2 : env.login.clickLanguage = true) :
    (env.login.countryOptions.find? usMatch = none →
      countrySelection env.login.countryOptions = env.login.countryOptions.head?) ∧
    (env.login.languageOptions.find? enMatch = none →
      languageSelection env.login.languageOptions = env.login.languageOptions.head?) ∧
    ((env.login.continueButtons.find? contMatch).isSome = true →
      interstitialPhase env.login = Except.ok 6000) ∧
    (env.login.continueButtons.find? contMatch = none →
      (scrapeTandemSource env opts).result.success = false ∧
      (scrapeTandemSource env opts).result.error = some "Could not find Continue button" ∧
      (scrapeTandemSource env opts).closeAttempts = 1) := by
  refine ⟨?_, ?_, ?_, ?_⟩
  · intro hf
    simp [countrySelection, hf]
  · intro hf
    simp [languageSelection, hf]
  · intro hf
    simp [interstitialPhase, hc, h1, h2, hf]
  · intro hf
    obtain ⟨t0, hw0⟩ := waitStep_of_withinOk navTimeoutMsg h0
    have hint : interstitialPhase env.login = Except.error "Could not find Continue button" := by
      simp [interstitialPhase, hc, h1, h2, hf]
    have hlog : performLogin env.login opts.username opts.password =
        Except.error "Could not find Continue button" := by
      simp [performLogin, hw0, hint]
    rw [scrape_error h (coreRun_error_login hlog)]
    exact ⟨rfl, rfl, rfl⟩

/-- C8 witness: no option matches the target locale (so the first
option is the selection) and the Continue control is absent, so the
concrete run fails with the missing-control message. -/
theorem interstitial_fallback_witness :
    (envNoContinue.login.countryOptions.find? usMatch = none →
      countrySelection envNoContinue.login.countryOptions =
        envNoContinue.login.countryOptions.head?) ∧
    (envNoContinue.login.languageOptions.find? enMatch = none →
      languageSelection envNoContinue.login.languageOptions =
        envNoContinue.login.languageOptions.head?) ∧
    ((envNoContinue.login.continueButtons.find? contMatch).isSome = true →
      interstitialPhase envNoContinue.login = Except.ok 6000) ∧
    (envNoContinue.login.continueButtons.find? contMatch = none →
      (scrapeTandemSource envNoContinue okOpts).result.success = false ∧
      (scrapeTandemSource envNoContinue okOpts).result.error =
        some "Could not find Continue button" ∧
      (scrapeTandemSource envNoContinue okOpts).closeAttempts = 1) :=
  interstitial_fallback envNoContinue okOpts (by decide) (by decide) rfl rfl rfl

/-- C9 (amended): while a sync is in flight, a concurrent POST that
passes the API-key check receives status 409, starts no second scrape,
and leaves the in-flight flag to the running sync; and from an idle
state the flag is false again after every exit path — sync success,
sync failure and thrown exception alike — so a failed sync never blocks
future syncs.  (An unauthorized concurrent POST receives 401, not 409 —
see the counterexample.) -/
theorem sync_route_guard (apiKey : Option String) (req : ApiRequest) (sync : SyncOutcome)
    (h : validateApiKey apiKey req = true) :
    (POST apiKey req true sync).response.status = 409 ∧
    (POST apiKey req true sync).syncStarted = false ∧
    (POST apiKey req true sync).flagAfter = true ∧
    (∀ outcome, (POST apiKey req false outcome).flagAfter = false ∧
      (POST apiKey req false outcome).syncStarted = true) := by
  refine ⟨?_, ?_, ?_, ?_⟩
  · simp [POST, h]
  · simp [POST, h]
  · simp [POST, h]
  · intro outcome
    cases outcome with
    | resolved s => simp [POST, h]
    | threw m => simp [POST, h]

/-- C9 witness: with a correct X-API-Key, the concurrent POST is
rejected with 409 and no scrape starts, even when the modelled sync
outcome is a thrown exception. -/
theorem sync_route_guard_witness :
    (POST (some "secret") reqGood true (SyncOutcome.threw "boom")).response.status = 409 ∧
    (POST (some "secret") reqGood true (SyncOutcome.threw "boom")).syncStarted = false ∧
    (POST (some "secret") reqGood true (SyncOutcome.threw "boom")).flagAfter = true :=
  ⟨(sync_route_guard (some "secret") reqGood (SyncOutcome.threw "boom") (by decide)).1,
   (sync_route_guard (some "secret") reqGood (SyncOutcome.threw "boom") (by decide)).2.1,
   (sync_route_guard (some "secret") reqGood (SyncOutcome.threw "boom") (by decide)).2.2.1⟩

/-- C9 counterexample: a concurrent POST that carries no valid API key
receives status 401, not 409 — the claim's "any concurrent POST returns
409" fails for unauthorized requests. -/
theorem sync_unauthorized_409_cex :
    (POST (some "secret") { authorization := none, xApiKey := none } true
      (SyncOutcome.resolved true)).response.status = 401 ∧
    (POST (some "secret") { authorization := none, xApiKey := none } true
      (SyncOutcome.resolved true)).response.status ≠ 409 := by
  decide

/-- C10 (amended): validateApiKey accepts exactly when API_KEY is set
to a non-empty value and either the Authorization header starts with
"Bearer " and its token equals the key, or no Bearer-shaped
Authorization header is present and the X-API-Key header equals the
key.  In particular, when API_KEY is unset every request is rejected,
and a mismatched Bearer header is rejected even if X-API-Key matches
(the Bearer branch returns without falling through - see the
counterexample). -/
theorem validateApiKey_spec (apiKey : Option String) (req : ApiRequest) :
    validateApiKey apiKey req = true ↔
      ∃ k, apiKey = some k ∧ k ≠ "" ∧
        ((∃ a, req.authorization = some a ∧ strStartsWith a "Bearer " = true ∧ strDrop a 7 = k) ∨
         ((∀ a, req.authorization = some a → strStartsWith a "Bearer " = false) ∧
           req.xApiKey = some k)) := by
  cases apiKey with
  | none => simp [validateApiKey]
  | some k =>
    by_cases hk : k = ""
    · subst hk
      simp [validateApiKey]
    · cases hauth : req.authorization with
      | none =>
        have hval : validateApiKey (some k) req = xKeyCheck req.xApiKey k := by
          simp [validateApiKey, hk, hauth]
        rw [hval, xKeyCheck_iff hk]
        constructor
        · intro hx
          exact ⟨k, rfl, hk, Or.inr ⟨fun a ha => Option.noConfusion ha, hx⟩⟩
        · rintro ⟨k', hk', hne, hcase⟩
          injection hk' with hkk
          subst hkk
          rcases hcase with ⟨a, ha, hb', hd⟩ | ⟨hall, hx⟩
          · exact Option.noConfusion ha
          · exact hx
      | some a =>
        cases hb : strStartsWith a "Bearer " with
        | true =>
          have hval : validateApiKey (some k) req = decide (strDrop a 7 = k) := by
            simp [validateApiKey, hk, hauth, hb]
          rw [hval]
          constructor
          · intro hd
            exact ⟨k, rfl, hk, Or.inl ⟨a, rfl, hb, of_decide_eq_true hd⟩⟩
          · rintro ⟨k', hk', hne, hcase⟩
            injection hk' with hkk
            subst hkk
            rcases hcase with ⟨a', ha', hb', hd⟩ | ⟨hall, hx⟩
            · injection ha' with haa
              subst haa
              exact decide_eq_true hd
            · have hfalse := hall a rfl
              rw [hb] at hfalse
              exact Bool.noConfusion hfalse
        | false =>
          have hval : validateApiKey (some k) req = xKeyCheck req.xApiKey k := by
            simp [validateApiKey, hk, hauth, hb]
          rw [hval, xKeyCheck_iff hk]
          constructor
          · intro hx
            refine ⟨k, rfl, hk, Or.inr ⟨?_, hx⟩⟩
            intro a' ha'
            injection ha' with haa
            subst haa
            exact hb
          · rintro ⟨k', hk', hne, hcase⟩
            injection hk' with hkk
            subst hkk
            rcases hcase with ⟨a', ha', hb', hd⟩ | ⟨hall, hx⟩
            · injection ha' with haa
              subst haa
              rw [hb] at hb'
              exact Bool.noConfusion hb'
            · exact hx

/-- C10 counterexample: API_KEY is "secret", the Authorization header
is "Bearer wrong" and the X-API-Key header is "secret".  The claim's
reading accepts (the X-API-Key header carries the exact key), but the
code rejects: the Bearer branch returns without consulting
X-API-Key. -/
theorem bearer_shadows_xapikey_cex :
    validateApiKey (some "secret")
      { authorization := some "Bearer wrong", xApiKey := some "secret" } = false ∧
    claimApiKeyOk (some "secret")
      { authorization := some "Bearer wrong", xApiKey := some "secret" } = true := by
  decide
